import Mathlib

/- Verification of the windowed time-series preprocessing and forecasting
pipeline of the solid-goggles repository (forecasting notebook and the
early-stopping callback of the sentiment notebook).  Numeric observations are
modelled as exact rationals; Python list slices become `List.take`/`List.drop`;
fallible operations return `Except`. -/

namespace SolidGoggles

/-- Train prefix `train_data = temperatures[:SPLIT_TIME]`
(forecasting notebook, normalization cell). -/
def trainData (temps : List ℚ) (splitTime : Nat) : List ℚ :=
  temps.take splitTime

/-- From the source: `train_mean = sum(train_data)/len(train_data)`. -/
def trainMean (temps : List ℚ) (splitTime : Nat) : ℚ :=
  (trainData temps splitTime).sum / ((trainData temps splitTime).length : ℚ)

/-- From the source: `squared_diff = [(x - train_mean)**2 for x in train_data]`. -/
def squaredDiff (temps : List ℚ) (splitTime : Nat) : List ℚ :=
  (trainData temps splitTime).map (fun x => (x - trainMean temps splitTime) ^ 2)

/-- From the source: `train_std = sum(squared_diff)/(len(train_data)-1)`.
No square root is applied anywhere in the cell. -/
def trainStd (temps : List ℚ) (splitTime : Nat) : ℚ :=
  (squaredDiff temps splitTime).sum / (((trainData temps splitTime).length : ℚ) - 1)

/-- From the source:
`normalized_data = [(x-train_mean)/train_std for x in temperatures]`. -/
def normalizedData (temps : List ℚ) (splitTime : Nat) : List ℚ :=
  temps.map (fun x => (x - trainMean temps splitTime) / trainStd temps splitTime)

/-- From the source:
`renormalized_forecast = [f*train_std + train_mean for f in forecast]`. -/
def renormalizedForecast (temps : List ℚ) (splitTime : Nat)
    (forecast : List ℚ) : List ℚ :=
  forecast.map (fun f => f * trainStd temps splitTime + trainMean temps splitTime)

/-- C3: the divisor `train_std` is the sum of squared deviations of the train
prefix from its mean divided by (length - 1) with no square root taken, and
each element of the full sequence is normalized as `(x - train_mean)/train_std`
— division by the variance rather than the standard deviation.  The concrete
conjuncts exhibit a train prefix `[0, 2]` whose sample variance is `2`: the
computed `trainStd` is `2`, whose square is `4 ≠ 2`, so `trainStd` is not the
standard deviation (whose square would be `2`). -/
theorem trainStd_divides_by_variance (temps : List ℚ) (sp : Nat) :
    trainStd temps sp
      = ((temps.take sp).map (fun x => (x - trainMean temps sp) ^ 2)).sum
          / (((temps.take sp).length : ℚ) - 1)
    ∧ normalizedData temps sp
      = temps.map (fun x => (x - trainMean temps sp) / trainStd temps sp)
    ∧ trainStd [0, 2] 2 = 2
    ∧ ¬ trainStd [0, 2] 2 ^ 2 = 2 := by
  refine ⟨rfl, rfl, ?_, ?_⟩ <;>
    norm_num [trainStd, squaredDiff, trainData, trainMean]

/-- C9: renormalization `f * train_std + train_mean` is the exact inverse of
normalization `(x - train_mean) / train_std` whenever `train_std ≠ 0`,
whatever value `train_std` holds. -/
theorem renormalization_inverts_normalization (temps : List ℚ) (sp : Nat)
    (x : ℚ) (h : trainStd temps sp ≠ 0) :
    (x - trainMean temps sp) / trainStd temps sp * trainStd temps sp
        + trainMean temps sp = x
    ∧ renormalizedForecast temps sp (normalizedData temps sp) = temps := by
  constructor
  · rw [div_mul_cancel₀ _ h, sub_add_cancel]
  · unfold renormalizedForecast normalizedData
    rw [List.map_map]
    have hcomp : ∀ y ∈ temps,
        ((fun f => f * trainStd temps sp + trainMean temps sp) ∘
          (fun z => (z - trainMean temps sp) / trainStd temps sp)) y = y := by
      intro y _
      simp only [Function.comp]
      rw [div_mul_cancel₀ _ h, sub_add_cancel]
    calc temps.map _ = temps.map id := List.map_congr_left hcomp
      _ = temps := List.map_id temps

/-- Witness for C9 at `temps = [0, 2]`, `splitTime = 2`, `x = 5`. -/
theorem renormalization_inverts_normalization_witness :
    (5 - trainMean [0, 2] 2) / trainStd [0, 2] 2 * trainStd [0, 2] 2
        + trainMean [0, 2] 2 = 5
    ∧ renormalizedForecast [0, 2] 2 (normalizedData [0, 2] 2) = [0, 2] :=
  renormalization_inverts_normalization [0, 2] 2 5
    (by norm_num [trainStd, squaredDiff, trainData, trainMean])

/-- C10: `train_mean` and `train_std` are computed from the train prefix
`temperatures[:SPLIT_TIME]` only: two sequences agreeing on the prefix get
identical statistics, and the normalized value at an index depends only on the
prefix and the raw value at that index. -/
theorem normalization_uses_train_prefix_only (t₁ t₂ : List ℚ) (sp i : Nat)
    (hpre : t₁.take sp = t₂.take sp) (hi : t₁.get? i = t₂.get? i) :
    trainMean t₁ sp = trainMean t₂ sp
    ∧ trainStd t₁ sp = trainStd t₂ sp
    ∧ (normalizedData t₁ sp).get? i = (normalizedData t₂ sp).get? i := by
  have hm : trainMean t₁ sp = trainMean t₂ sp := by
    unfold trainMean trainData
    rw [hpre]
  have hs : trainStd t₁ sp = trainStd t₂ sp := by
    unfold trainStd squaredDiff trainData
    rw [hpre, hm]
  refine ⟨hm, hs, ?_⟩
  unfold normalizedData
  rw [List.get?_map, List.get?_map, hi, hm, hs]

/-- Witness for C10: `[1, 2, 3]` and `[1, 2, 4]` agree on their first two
elements and at index 1, so the statistics and the normalized value at
index 1 coincide. -/
theorem normalization_uses_train_prefix_only_witness :
    ([1, 2, 3] : List ℚ).take 2 = ([1, 2, 4] : List ℚ).take 2
    ∧ ([1, 2, 3] : List ℚ).get? 1 = ([1, 2, 4] : List ℚ).get? 1
    ∧ (trainMean [1, 2, 3] 2 = trainMean [1, 2, 4] 2
      ∧ trainStd [1, 2, 3] 2 = trainStd [1, 2, 4] 2
      ∧ (normalizedData [1, 2, 3] 2).get? 1 = (normalizedData [1, 2, 4] 2).get? 1) :=
  ⟨rfl, rfl,
    normalization_uses_train_prefix_only [1, 2, 3] [1, 2, 4] 2 1 rfl rfl⟩

/-- Modelled from the spec: the error kinds of the pipeline (`InsufficientDataError`,
`InvalidSplitError`); the error classes live in the `utils`
module, which is absent from the sources. -/
inductive PipeError where
  | insufficientData
  | invalidSplit
deriving DecidableEq

/-- The window `sequence[i : i+W]`. -/
def window (seq : List ℚ) (i W : Nat) : List ℚ :=
  (seq.drop i).take W

/-- Modelled from the spec: the (window, label) pairs of `build_windowed_dataset`
(`preprocess_timeseries` in the `utils` module of the repository, absent from the
sources): one pair `(sequence[i : i+W], sequence[i+W])` per start offset `i`
in `0 .. len(sequence) - W - 1`. -/
def windowedPairs (seq : List ℚ) (W : Nat) : List (List ℚ × ℚ) :=
  (List.range (seq.length - W)).map (fun i => (window seq i W, seq.getD (i + W) 0))

/-- Grouping into fixed-size batches of `B` items; a trailing partial batch is
emitted as-is. -/
def toBatches {α : Type _} (B : Nat) : List α → List (List α)
  | [] => []
  | x :: xs => (x :: xs.take (B - 1)) :: toBatches B (xs.drop (B - 1))
termination_by l => l.length
decreasing_by simp [List.length_drop]; omega

/-- Modelled from the spec: `build_windowed_dataset(sequence, window_size,
batch_size, shuffle_buffer)` (`preprocess_timeseries` in the repository
`utils` module, absent from the sources).  Fails with `InsufficientDataError`
when `len(sequence) ≤ window_size`; otherwise shuffles the windowed pairs and
groups them into batches.  The buffered random shuffle is abstracted as a
caller-supplied `shuffle` whose every outcome is a permutation of its input;
`shuffleBuffer` only parametrizes that random source. -/
def buildWindowedDataset (shuffle : List (List ℚ × ℚ) → List (List ℚ × ℚ))
    (seq : List ℚ) (windowSize batchSize : Nat) (_shuffleBuffer : Nat) :
    Except PipeError (List (List (List ℚ × ℚ))) :=
  if seq.length ≤ windowSize then .error .insufficientData
  else .ok (toBatches batchSize (shuffle (windowedPairs seq windowSize)))

/-- Modelled from the spec: the ordered per-window predictions of
`forecast_sequence` (`forecast_timeseries` in the `utils` module of the repository,
absent from the sources): one prediction per start offset, in offset order. -/
def forecastPredictions (predictFn : List ℚ → ℚ) (seq : List ℚ) (W : Nat) :
    List ℚ :=
  (List.range (seq.length - W)).map (fun k => predictFn (window seq k W))

/-- Modelled from the spec: `forecast_sequence(predict_fn, sequence,
window_size)` (`forecast_timeseries` in the `utils` module of the repository,
absent from the sources).  Fails with `InsufficientDataError` when
`len(sequence) ≤ window_size`. -/
def forecastSequence (predictFn : List ℚ → ℚ) (seq : List ℚ) (W : Nat) :
    Except PipeError (List ℚ) :=
  if seq.length ≤ W then .error .insufficientData
  else .ok (forecastPredictions predictFn seq W)

theorem toBatches_flatten {α : Type _} (B : Nat) (l : List α) :
    (toBatches B l).flatten = l := by
  match l with
  | [] => simp [toBatches]
  | x :: xs =>
    have ih := toBatches_flatten B (xs.drop (B - 1))
    rw [toBatches]
    simp [ih, List.take_append_drop]
termination_by l.length
decreasing_by simp [List.length_drop]; omega

/-- C1: for a sequence of length `N` and window size `W < N`,
`build_windowed_dataset` produces, as a multiset ignoring batch and shuffle
order, exactly `N - W` (window, label) pairs, one per start offset `i` in
`0 .. N - W - 1`, with window `sequence[i : i+W]` and label
`sequence[i + W]`. -/
theorem buildWindowedDataset_pairs
    (shuffle : List (List ℚ × ℚ) → List (List ℚ × ℚ)) (seq : List ℚ)
    (windowSize batchSize shuffleBuffer : Nat)
    (hshuffle : ∀ l, (shuffle l).Perm l) (hW : windowSize < seq.length) :
    buildWindowedDataset shuffle seq windowSize batchSize shuffleBuffer
      = .ok (toBatches batchSize (shuffle (windowedPairs seq windowSize)))
    ∧ (toBatches batchSize (shuffle (windowedPairs seq windowSize))).flatten.Perm
        ((List.range (seq.length - windowSize)).map
          (fun i => ((seq.drop i).take windowSize, seq.getD (i + windowSize) 0)))
    ∧ (toBatches batchSize (shuffle (windowedPairs seq windowSize))).flatten.length
        = seq.length - windowSize := by
  refine ⟨?_, ?_, ?_⟩
  · unfold buildWindowedDataset
    rw [if_neg (by omega)]
  · rw [toBatches_flatten]
    exact hshuffle _
  · rw [toBatches_flatten, (hshuffle _).length_eq]
    simp [windowedPairs]

/-- Witness for C1 at `shuffle = id`, sequence `[1, 2, 3, 4]`, window size 2,
batch size 2, shuffle buffer 5. -/
theorem buildWindowedDataset_pairs_witness :
    buildWindowedDataset id [1, 2, 3, 4] 2 2 5
      = .ok (toBatches 2 (id (windowedPairs [1, 2, 3, 4] 2)))
    ∧ (toBatches 2 (id (windowedPairs [1, 2, 3, 4] 2))).flatten.Perm
        ((List.range (([1, 2, 3, 4] : List ℚ).length - 2)).map
          (fun i => ((([1, 2, 3, 4] : List ℚ).drop i).take 2,
            ([1, 2, 3, 4] : List ℚ).getD (i + 2) 0)))
    ∧ (toBatches 2 (id (windowedPairs [1, 2, 3, 4] 2))).flatten.length
        = ([1, 2, 3, 4] : List ℚ).length - 2 :=
  buildWindowedDataset_pairs id [1, 2, 3, 4] 2 2 5
    (fun l => List.Perm.refl l) (by decide)

/-- C2: `forecast_sequence` returns an ordered prediction list of length
`len(sequence) - W` whose entry at index `k` is `predict_fn` applied to the
window `sequence[k : k+W]`; on `[1, ..., 10]` with `W = 3` and a `predict_fn`
returning the last element of each window it yields `[3, 4, 5, 6, 7, 8, 9]`. -/
theorem forecastSequence_aligned (predictFn : List ℚ → ℚ) (seq : List ℚ)
    (W k : Nat) (hW : W < seq.length) (hk : k < seq.length - W) :
    forecastSequence predictFn seq W = .ok (forecastPredictions predictFn seq W)
    ∧ (forecastPredictions predictFn seq W).length = seq.length - W
    ∧ (forecastPredictions predictFn seq W).get? k
        = some (predictFn ((seq.drop k).take W))
    ∧ forecastSequence (fun w => w.getLastD 0)
        [1, 2, 3, 4, 5, 6, 7, 8, 9, 10] 3 = .ok [3, 4, 5, 6, 7, 8, 9] := by
  refine ⟨?_, ?_, ?_, rfl⟩
  · unfold forecastSequence
    rw [if_neg (by omega)]
  · simp [forecastPredictions]
  · unfold forecastPredictions
    rw [List.get?_map, List.get?_range hk]
    rfl

/-- Witness for C2 at sequence `[1, ..., 10]`, `W = 3`, `k = 0`, with the
last-element `predict_fn`. -/
theorem forecastSequence_aligned_witness :
    3 < ([1, 2, 3, 4, 5, 6, 7, 8, 9, 10] : List ℚ).length
    ∧ (0 < ([1, 2, 3, 4, 5, 6, 7, 8, 9, 10] : List ℚ).length - 3
      ∧ (forecastSequence (fun w => w.getLastD 0) [1, 2, 3, 4, 5, 6, 7, 8, 9, 10] 3
          = .ok (forecastPredictions (fun w => w.getLastD 0)
              [1, 2, 3, 4, 5, 6, 7, 8, 9, 10] 3)
        ∧ (forecastPredictions (fun w => w.getLastD 0)
            [1, 2, 3, 4, 5, 6, 7, 8, 9, 10] 3).length
          = ([1, 2, 3, 4, 5, 6, 7, 8, 9, 10] : List ℚ).length - 3
        ∧ (forecastPredictions (fun w => w.getLastD 0)
            [1, 2, 3, 4, 5, 6, 7, 8, 9, 10] 3).get? 0
          = some ((fun (w : List ℚ) => w.getLastD 0)
              ((([1, 2, 3, 4, 5, 6, 7, 8, 9, 10] : List ℚ).drop 0).take 3))
        ∧ forecastSequence (fun w => w.getLastD 0)
            [1, 2, 3, 4, 5, 6, 7, 8, 9, 10] 3 = .ok [3, 4, 5, 6, 7, 8, 9])) :=
  ⟨by decide, by decide,
    forecastSequence_aligned (fun w => w.getLastD 0)
      [1, 2, 3, 4, 5, 6, 7, 8, 9, 10] 3 0 (by decide) (by decide)⟩

/-- Modelled from the spec: `align_forecast_to_test_split(forecast,
split_index, window_size)` — an operation the spec abstracts from the
notebook's inline slicing of the forecast buffer; the repository's `utils`
module holding the pipeline is absent from the sources.  Fails with
`InvalidSplitError` when `split_index < window_size`, before any slicing;
otherwise returns the slice `forecast[split_index - window_size :]`. -/
def alignForecastToTestSplit (forecast : List ℚ)
    (splitIndex windowSize : Nat) : Except PipeError (List ℚ) :=
  if splitIndex < windowSize then .error .invalidSplit
  else .ok (forecast.drop (splitIndex - windowSize))

/-- C4: for a forecast buffer produced by `forecast_sequence` and a split index
with `window_size ≤ split_index ≤ len(sequence)`,
`align_forecast_to_test_split` returns exactly the slice of the buffer from
index `split_index - window_size` to its end, of length
`len(sequence) - split_index`, whose first element is
`forecast[split_index - window_size]`. -/
theorem alignForecastToTestSplit_slices (predictFn : List ℚ → ℚ)
    (seq f : List ℚ) (splitIndex W : Nat)
    (hf : forecastSequence predictFn seq W = .ok f)
    (hWs : W ≤ splitIndex) (hs : splitIndex ≤ seq.length) :
    alignForecastToTestSplit f splitIndex W = .ok (f.drop (splitIndex - W))
    ∧ (f.drop (splitIndex - W)).length = seq.length - splitIndex
    ∧ (f.drop (splitIndex - W)).get? 0 = f.get? (splitIndex - W) := by
  have hc : ¬ seq.length ≤ W := by
    intro hle
    unfold forecastSequence at hf
    rw [if_pos hle] at hf
    exact Except.noConfusion hf
  have hfval : forecastPredictions predictFn seq W = f := by
    unfold forecastSequence at hf
    rw [if_neg hc] at hf
    exact Except.ok.inj hf
  have hlen : f.length = seq.length - W := by
    rw [← hfval]
    simp [forecastPredictions]
  refine ⟨?_, ?_, ?_⟩
  · unfold alignForecastToTestSplit
    rw [if_neg (by omega)]
  · rw [List.length_drop, hlen]
    omega
  · rw [List.get?_drop, Nat.add_zero]

/-- Witness for C4 at sequence `[1, 2, 3, 4]`, window size 1, split index 2,
with the last-element `predict_fn`; the forecast buffer is `[1, 2, 3]`. -/
theorem alignForecastToTestSplit_slices_witness :
    forecastSequence (fun w => w.getLastD 0) [1, 2, 3, 4] 1
      = .ok [1, 2, 3]
    ∧ 1 ≤ 2 ∧ 2 ≤ ([1, 2, 3, 4] : List ℚ).length
    ∧ (alignForecastToTestSplit [1, 2, 3] 2 1
        = .ok (([1, 2, 3] : List ℚ).drop (2 - 1))
      ∧ (([1, 2, 3] : List ℚ).drop (2 - 1)).length
          = ([1, 2, 3, 4] : List ℚ).length - 2
      ∧ (([1, 2, 3] : List ℚ).drop (2 - 1)).get? 0
          = ([1, 2, 3] : List ℚ).get? (2 - 1)) :=
  ⟨rfl, by decide, by decide,
    alignForecastToTestSplit_slices (fun w => w.getLastD 0) [1, 2, 3, 4]
      [1, 2, 3] 2 1 rfl (by decide) (by decide)⟩

/-- C5: with `len(sequence) ≤ window_size`, both `build_windowed_dataset` and
`forecast_sequence` fail with `InsufficientDataError` and never return an
empty dataset or empty forecast. -/
theorem insufficientData_precondition
    (shuffle : List (List ℚ × ℚ) → List (List ℚ × ℚ))
    (predictFn : List ℚ → ℚ) (seq : List ℚ) (W B sb : Nat)
    (h : seq.length ≤ W) :
    buildWindowedDataset shuffle seq W B sb = .error .insufficientData
    ∧ forecastSequence predictFn seq W = .error .insufficientData
    ∧ buildWindowedDataset shuffle seq W B sb ≠ .ok []
    ∧ forecastSequence predictFn seq W ≠ .ok [] := by
  have hb : buildWindowedDataset shuffle seq W B sb = .error .insufficientData := by
    unfold buildWindowedDataset
    rw [if_pos h]
  have hfc : forecastSequence predictFn seq W = .error .insufficientData := by
    unfold forecastSequence
    rw [if_pos h]
  refine ⟨hb, hfc, ?_, ?_⟩
  · rw [hb]
    exact fun hcontr => Except.noConfusion hcontr
  · rw [hfc]
    exact fun hcontr => Except.noConfusion hcontr

/-- Witness for C5 at sequence `[1, 2]` and window size 2. -/
theorem insufficientData_precondition_witness :
    ([1, 2] : List ℚ).length ≤ 2
    ∧ (buildWindowedDataset id [1, 2] 2 1 5 = .error .insufficientData
      ∧ forecastSequence (fun w => w.getLastD 0) [1, 2] 2
          = .error .insufficientData
      ∧ buildWindowedDataset id [1, 2] 2 1 5 ≠ .ok []
      ∧ forecastSequence (fun w => w.getLastD 0) [1, 2] 2 ≠ .ok []) :=
  ⟨by decide,
    insufficientData_precondition id (fun w => w.getLastD 0) [1, 2] 2 1 5
      (by decide)⟩

/-- C7: with `split_index < window_size`, `align_forecast_to_test_split` fails
with `InvalidSplitError`, before any slicing of the forecast buffer. -/
theorem alignForecastToTestSplit_invalidSplit (f : List ℚ)
    (splitIndex W : Nat) (h : splitIndex < W) :
    alignForecastToTestSplit f splitIndex W = .error .invalidSplit := by
  unfold alignForecastToTestSplit
  rw [if_pos h]

/-- Witness for C7 at forecast `[1]`, split index 0, window size 2. -/
theorem alignForecastToTestSplit_invalidSplit_witness :
    0 < 2 ∧ alignForecastToTestSplit [1] 0 2 = .error .invalidSplit :=
  ⟨by decide, alignForecastToTestSplit_invalidSplit [1] 0 2 (by decide)⟩

/-- Modelled from the spec: error kinds of the fallible forecasting path:
`InsufficientDataError`, and `ModelInferenceError` wrapping the underlying
cause raised by the injected prediction capability. -/
inductive ForecastError (ε : Type) where
  | insufficientData
  | modelInference (cause : ε)

/-- Modelled from the spec: `forecast_sequence` with a fallible injected
`predict_fn` batch capability (`forecast_timeseries` in the repository
`utils` module, absent from the sources).  All windows are passed to
`predict_fn` in one batch (the default batching choice of the spec), the call is
made exactly once — never retried — and any failure is wrapped as
`ModelInferenceError` with the cause preserved. -/
def forecastSequenceE {ε : Type}
    (predictFn : List (List ℚ) → Except ε (List ℚ)) (seq : List ℚ)
    (W : Nat) : Except (ForecastError ε) (List ℚ) :=
  if seq.length ≤ W then .error .insufficientData
  else
    match predictFn ((List.range (seq.length - W)).map (fun k => window seq k W)) with
    | .error e => .error (.modelInference e)
    | .ok ps => .ok ps

/-- C8: if `predict_fn` raises an error on its batch, `forecast_sequence`
fails with a `ModelInferenceError` wrapping the underlying error untouched as
its cause; the failure is neither swallowed nor masked nor retried. -/
theorem forecastSequenceE_wraps_cause {ε : Type}
    (predictFn : List (List ℚ) → Except ε (List ℚ)) (seq : List ℚ)
    (W : Nat) (e : ε) (hW : W < seq.length)
    (he : predictFn ((List.range (seq.length - W)).map (fun k => window seq k W))
      = .error e) :
    forecastSequenceE predictFn seq W = .error (.modelInference e) := by
  unfold forecastSequenceE
  rw [if_neg (by omega), he]

/-- Witness for C8 at sequence `[1, 2, 3]`, window size 2, a `predict_fn`
always failing with cause `7`. -/
theorem forecastSequenceE_wraps_cause_witness :
    2 < ([1, 2, 3] : List ℚ).length
    ∧ forecastSequenceE (fun _ => .error 7) [1, 2, 3] 2
        = .error (.modelInference (7 : Nat)) :=
  ⟨by decide,
    forecastSequenceE_wraps_cause (fun _ => Except.error 7) [1, 2, 3] 2 7
      (by decide) rfl⟩

/-- Modelled from the spec: the two states of the early-stopping
`AccuracyCallback` (the `utils` module of the repository, absent from the sources). -/
inductive CallbackState where
  | monitoring
  | stopped
deriving DecidableEq

/-- Modelled from the spec: one epoch-boundary step of `AccuracyCallback`: in
`monitoring`, transition to `stopped` as soon as the monitored metric meets or
exceeds the threshold; `stopped` is terminal. -/
def accuracyCallbackStep (threshold : ℚ) (s : CallbackState) (metric : ℚ) :
    CallbackState :=
  match s with
  | .stopped => .stopped
  | .monitoring => if threshold ≤ metric then .stopped else .monitoring

/-- Modelled from the spec: the state of the callback after consuming a metric
stream, starting in `monitoring`; halt is signaled exactly in `stopped`. -/
def accuracyCallbackState (threshold : ℚ) (metrics : List ℚ) : CallbackState :=
  metrics.foldl (accuracyCallbackStep threshold) .monitoring

theorem foldl_accuracyCallbackStep_stopped (threshold : ℚ) (l : List ℚ) :
    l.foldl (accuracyCallbackStep threshold) .stopped = .stopped := by
  induction l with
  | nil => rfl
  | cons x xs ih => simpa [accuracyCallbackStep] using ih

theorem accuracyCallbackState_stopped_iff (threshold : ℚ) (l : List ℚ) :
    accuracyCallbackState threshold l = .stopped ↔ ∃ x ∈ l, threshold ≤ x := by
  induction l with
  | nil => simp [accuracyCallbackState]
  | cons x xs ih =>
    have hstep : accuracyCallbackState threshold (x :: xs)
        = xs.foldl (accuracyCallbackStep threshold)
            (accuracyCallbackStep threshold .monitoring x) := rfl
    by_cases hx : threshold ≤ x
    · have h1 : accuracyCallbackStep threshold .monitoring x = .stopped := by
        simp [accuracyCallbackStep, hx]
      rw [hstep, h1, foldl_accuracyCallbackStep_stopped]
      constructor
      · intro _
        exact ⟨x, List.mem_cons_self x xs, hx⟩
      · intro _
        rfl
    · have h1 : accuracyCallbackStep threshold .monitoring x = .monitoring := by
        simp [accuracyCallbackStep, hx]
      rw [hstep, h1]
      rw [show xs.foldl (accuracyCallbackStep threshold) .monitoring
            = accuracyCallbackState threshold xs from rfl, ih]
      constructor
      · rintro ⟨y, hy, hty⟩
        exact ⟨y, List.mem_cons_of_mem x hy, hty⟩
      · rintro ⟨y, hy, hty⟩
        rcases List.mem_cons.mp hy with hyx | hyxs
        · exact absurd (hyx ▸ hty) hx
        · exact ⟨y, hyxs, hty⟩

/-- C6: the early-stopping callback is a two-state machine whose state after
`k` epochs is `stopped` exactly when some epoch among the first `k` has its
metric meet or exceed the threshold — hence it signals halt at the first such
epoch and never before — and `stopped` is terminal; with threshold `0.9` and
metric stream `[0.5, 0.85, 0.92, 0.95]` it signals halt starting at the third
epoch and not before. -/
theorem accuracyCallback_halts_at_first_threshold (threshold : ℚ)
    (metrics : List ℚ) (k : Nat) :
    (accuracyCallbackState threshold (metrics.take k) = .stopped
      ↔ ∃ j v, j < k ∧ metrics.get? j = some v ∧ threshold ≤ v)
    ∧ (accuracyCallbackState threshold (metrics.take k) = .stopped
        → accuracyCallbackState threshold (metrics.take (k + 1)) = .stopped)
    ∧ accuracyCallbackState (9/10)
        (([1/2, 85/100, 92/100, 95/100] : List ℚ).take 3) = .stopped
    ∧ accuracyCallbackState (9/10)
        (([1/2, 85/100, 92/100, 95/100] : List ℚ).take 2) = .monitoring
    ∧ accuracyCallbackState (9/10)
        (([1/2, 85/100, 92/100, 95/100] : List ℚ).take 1) = .monitoring := by
  have hiff : ∀ k' : Nat,
      accuracyCallbackState threshold (metrics.take k') = .stopped
        ↔ ∃ j v, j < k' ∧ metrics.get? j = some v ∧ threshold ≤ v := by
    intro k'
    rw [accuracyCallbackState_stopped_iff]
    constructor
    · rintro ⟨x, hx, htx⟩
      obtain ⟨j, hget⟩ := List.mem_iff_get?.mp hx
      have hjlt : j < min k' metrics.length := by
        rcases List.get?_eq_some.mp hget with ⟨hlen, _⟩
        simpa [List.length_take] using hlen
      have hjk : j < k' := lt_of_lt_of_le hjlt (min_le_left _ _)
      refine ⟨j, x, hjk, ?_, htx⟩
      rw [← List.get?_take hjk]
      exact hget
    · rintro ⟨j, v, hjk, hget, htv⟩
      refine ⟨v, ?_, htv⟩
      have hjv : (metrics.take k').get? j = some v := by
        rw [List.get?_take hjk]
        exact hget
      exact List.get?_mem hjv
  refine ⟨hiff k, ?_, ?_, ?_, ?_⟩
  · intro h
    rw [hiff k] at h
    rw [hiff (k + 1)]
    obtain ⟨j, v, hjk, hget, htv⟩ := h
    exact ⟨j, v, Nat.lt_succ_of_lt hjk, hget, htv⟩
  · norm_num [accuracyCallbackState, accuracyCallbackStep]
  · norm_num [accuracyCallbackState, accuracyCallbackStep]
  · norm_num [accuracyCallbackState, accuracyCallbackStep]

end SolidGoggles
